import Mathlib

/-!
# Verification of the GeoTools batch geometry-bounds tools

Shallow embedding of the two Python source files
`ExcelGeometryBoundsProcessor/excel_geometry_bounds_processor.py` and
`CreateRectangleByGeojson/create_rectangle_from_geojson.py`.

Modelling conventions:
* Python numbers are exact rationals (`ℚ`); the numeric operations the tools
  perform on coordinates (`min`, `max`, `+`, `-`, `/2`) are exact on the
  decimal literals that occur in geometry strings, so no float rounding is
  modelled.
* `json.loads` is embedded as an executable recursive-descent parser `loads`
  over the JSON grammar; a raised `JSONDecodeError` is `none`.
* Raised Python exceptions are `Except PyErr`; the exact exception message
  strings are abbreviated (no claim depends on message text).
* Unbounded Python recursion over nested lists is given a fuel parameter;
  exhausted fuel models `RecursionError` (CPython's recursion limit).
-/

namespace GeoTools

/-- Python-level JSON values as produced by `json.loads`.  Numbers are exact
rationals (Python yields `int`/`float`).  Booleans are kept separate but count
as numeric where the source tests `isinstance(x, (int, float))`, since `bool`
is an `int` subclass in Python. -/
inductive JVal where
  | null
  | bool (b : Bool)
  | num (q : ℚ)
  | str (s : String)
  | arr (elems : List JVal)
  | obj (fields : List (String × JVal))

/-- Python exception kinds raised by the embedded code paths. -/
inductive PyErr where
  | valueError (msg : String)
  | typeError (msg : String)
  | indexError (msg : String)
  | attributeError (msg : String)
  | recursionError
deriving DecidableEq, Repr

/-- Result of a Python call that may raise. -/
abbrev PyResult (α : Type) := Except PyErr α

/-- Whether an `Except` is the error case. -/
def isErr {ε α : Type} : Except ε α → Bool
  | .error _ => true
  | .ok _ => false

/-! ## Character classes and tokens -/

/-- The whitespace class of Python's `str.strip` and of regex `\s`
(ASCII subset; the geometry strings in scope contain no exotic Unicode
whitespace). -/
def isPyWs (c : Char) : Bool :=
  [' ', '\t', '\n', '\r', '\x0b', '\x0c'].contains c

/-- Whitespace accepted between JSON tokens by `json.loads`. -/
def isJsonWs (c : Char) : Bool :=
  [' ', '\t', '\n', '\r'].contains c

def dropJWs (cs : List Char) : List Char := cs.dropWhile isJsonWs

/-- Python `str.strip()` (both ends, whitespace). -/
def pyStrip (s : String) : String :=
  ⟨((s.data.dropWhile isPyWs).reverse.dropWhile isPyWs).reverse⟩

/-- Python `str.upper()` (ASCII letters; keywords in scope are ASCII). -/
def pyUpper (s : String) : String := ⟨s.data.map Char.toUpper⟩

/-- Python `str.lower()` (ASCII letters; GeoJSON type names are ASCII). -/
def pyLowerStr (s : String) : String := ⟨s.data.map Char.toLower⟩

/-- `re.sub(r'\s+', ' ', ·)`: collapse every whitespace run to one space.
The boolean argument records whether the previous character was whitespace. -/
def collapseWsAux : Bool → List Char → List Char
  | _, [] => []
  | prevWs, c :: cs =>
    if isPyWs c then
      if prevWs then collapseWsAux true cs
      else ' ' :: collapseWsAux true cs
    else c :: collapseWsAux false cs

def collapseWs (s : String) : String := ⟨collapseWsAux false s.data⟩

/-- Greedy match of the regex token `-?\d+\.?\d*` at the head of `cs`;
returns the matched characters and the rest.  This is the number token of
`_parse_wkt`'s `re.findall` and of the `_is_coordinate_pair/array` patterns.
No backtracking is needed: the character classes of adjacent regex pieces are
disjoint, so the greedy match is the regex match. -/
def matchNumTok (cs : List Char) : Option (List Char × List Char) :=
  let (sgn, cs1) := match cs with
    | '-' :: r => (['-'], r)
    | _ => (([] : List Char), cs)
  let ds := cs1.takeWhile Char.isDigit
  if ds.isEmpty then none
  else
    let cs2 := cs1.drop ds.length
    let (dot, cs3) := match cs2 with
      | '.' :: r => (['.'], r)
      | _ => (([] : List Char), cs2)
    let fs := cs3.takeWhile Char.isDigit
    some (sgn ++ ds ++ dot ++ fs, cs3.drop fs.length)

def digitsToNat (ds : List Char) : Nat :=
  ds.foldl (fun n c => 10 * n + (c.toNat - '0'.toNat)) 0

/-- Strip an optional leading minus sign, reporting whether it was there. -/
def splitSign : List Char → Bool × List Char
  | '-' :: r => (true, r)
  | cs => (false, cs)

/-- Value of a `-?\d+\.?\d*` token: Python's `float()` applied to the match.
`float` never fails on a string of this shape (e.g. `float("1.") = 1.0`);
the value is exact here. -/
def numTokVal (tok : List Char) : ℚ :=
  let sn := splitSign tok
  let neg := sn.1
  let t1 := sn.2
  let ip := t1.takeWhile Char.isDigit
  let rest := t1.drop ip.length
  let fp := match rest with
    | '.' :: r => r
    | _ => ([] : List Char)
  let m : Int := (digitsToNat ip * 10 ^ fp.length + digitsToNat fp : Nat)
  mkRat (if neg then -m else m) (10 ^ fp.length)

/-- One attempt of the pair regex `(-?\d+\.?\d*)\s+(-?\d+\.?\d*)` anchored at
the head of `cs`. -/
def matchPairAt (cs : List Char) : Option ((List Char × List Char) × List Char) := do
  let (t1, r1) ← matchNumTok cs
  let ws := r1.takeWhile isPyWs
  if ws.isEmpty then none
  else
    let (t2, r3) ← matchNumTok (r1.drop ws.length)
    some ((t1, t2), r3)

/-- `re.findall(r'(-?\d+\.?\d*)\s+(-?\d+\.?\d*)', ·)`: scan left to right,
non-overlapping; on failure at a position advance one character.  Fuel is the
scan budget (callers pass `length + 1`, which never runs out since every step
consumes at least one character). -/
def findPairs : Nat → List Char → List (List Char × List Char)
  | 0, _ => []
  | _ + 1, [] => []
  | fuel + 1, c :: rest =>
    match matchPairAt (c :: rest) with
    | some (p, rest2) => p :: findPairs fuel rest2
    | none => findPairs fuel rest

/-- `re.findall(r'-?\d+\.?\d*', ·)`: the single-number scan used by
`_parse_coordinate_pair` and `_parse_coordinate_array`. -/
def findNumToks : Nat → List Char → List (List Char)
  | 0, _ => []
  | _ + 1, [] => []
  | fuel + 1, c :: rest =>
    match matchNumTok (c :: rest) with
    | some (t, rest2) => t :: findNumToks fuel rest2
    | none => findNumToks fuel rest

/-! ## `json.loads` -/

/-- Value of one hexadecimal digit (for `\uXXXX` escapes), by code point:
48–57 are `0`–`9`, 97–102 are `a`–`f`, 65–70 are `A`–`F`. -/
def hexDigitVal (c : Char) : Option Nat :=
  let n := c.toNat
  if 48 ≤ n && n ≤ 57 then some (n - 48)
  else if 97 ≤ n && n ≤ 102 then some (n - 87)
  else if 65 ≤ n && n ≤ 70 then some (n - 55)
  else none

def jsonEscape (c : Char) : Option Char :=
  match c with
  | '"' => some '"'
  | '\\' => some '\\'
  | '/' => some '/'
  | 'b' => some '\x08'
  | 'f' => some '\x0c'
  | 'n' => some '\n'
  | 'r' => some '\r'
  | 't' => some '\t'
  | _ => none

/-- Body of a JSON string literal (after the opening quote), with escapes. -/
def parseStrChars : List Char → Option (List Char × List Char)
  | [] => none
  | '"' :: rest => some ([], rest)
  | '\\' :: r =>
    match r with
    | 'u' :: h1 :: h2 :: h3 :: h4 :: r2 =>
      match hexDigitVal h1, hexDigitVal h2, hexDigitVal h3, hexDigitVal h4 with
      | some v1, some v2, some v3, some v4 =>
        (parseStrChars r2).map fun p =>
          (Char.ofNat (((v1 * 16 + v2) * 16 + v3) * 16 + v4) :: p.1, p.2)
      | _, _, _, _ => none
    | e :: r2 =>
      match jsonEscape e with
      | some ch => (parseStrChars r2).map fun p => (ch :: p.1, p.2)
      | none => none
    | [] => none
  | c :: rest => (parseStrChars rest).map fun p => (c :: p.1, p.2)

/-- A JSON number at the head of `cs` (JSON grammar: no leading zeros, a dot
requires fraction digits, optional exponent), as an exact rational. -/
def parseJNum (cs : List Char) : Option (ℚ × List Char) :=
  let sn := splitSign cs
  let neg := sn.1
  let cs1 := sn.2
  let ds := cs1.takeWhile Char.isDigit
  if ds.isEmpty then none
  else if ds.length > 1 && ds.headD '0' == '0' then none
  else
    let cs2 := cs1.drop ds.length
    let fracRes : Option (List Char × List Char) :=
      match cs2 with
      | '.' :: r =>
        let fs := r.takeWhile Char.isDigit
        if fs.isEmpty then none else some (fs, r.drop fs.length)
      | _ => some ([], cs2)
    match fracRes with
    | none => none
    | some (fp, cs3) =>
      let expRes : Option (Int × List Char) :=
        match cs3 with
        | 'e' :: r | 'E' :: r =>
          let (sg, r1) : Int × List Char := match r with
            | '+' :: r2 => (1, r2)
            | '-' :: r2 => (-1, r2)
            | _ => (1, r)
          let es := r1.takeWhile Char.isDigit
          if es.isEmpty then none
          else some (sg * (digitsToNat es : Int), r1.drop es.length)
        | _ => some (0, cs3)
      match expRes with
      | none => none
      | some (e, cs4) =>
        let m : Int := (digitsToNat ds * 10 ^ fp.length + digitsToNat fp : Nat)
        let sm : Int := if neg then -m else m
        let q : ℚ :=
          if 0 ≤ e then mkRat (sm * 10 ^ e.toNat) (10 ^ fp.length)
          else mkRat sm (10 ^ fp.length * 10 ^ (-e).toNat)
        some (q, cs4)

/-- Intermediate result of the JSON descent (a value, the tail of an array,
or the tail of an object). -/
inductive JPiece where
  | val (v : JVal)
  | items (vs : List JVal)
  | fields (fs : List (String × JVal))

/-- Insert one member into a Python dict modelled as an assoc list: a later
duplicate key overwrites in place (CPython dict semantics). -/
def objInsert (fs : List (String × JVal)) (kv : String × JVal) :
    List (String × JVal) :=
  if fs.any (fun p => p.1 == kv.1) then
    fs.map (fun p => if p.1 == kv.1 then kv else p)
  else fs ++ [kv]

def objOfList (fs : List (String × JVal)) : List (String × JVal) :=
  fs.foldl objInsert []

/-- Recursive descent over the `json.loads` grammar; a single fueled function
so the kernel can evaluate it.  Mode 0 parses a value, mode 1 the items of a
non-empty array (']' pending), mode 2 the members of a non-empty object. -/
def parseJAux : Nat → Nat → List Char → Option (JPiece × List Char)
  | 0, _, _ => none
  | fuel + 1, 0, cs =>
    match dropJWs cs with
    | 'n' :: 'u' :: 'l' :: 'l' :: r => some (.val .null, r)
    | 't' :: 'r' :: 'u' :: 'e' :: r => some (.val (.bool true), r)
    | 'f' :: 'a' :: 'l' :: 's' :: 'e' :: r => some (.val (.bool false), r)
    | '"' :: r => (parseStrChars r).map fun p => (.val (.str ⟨p.1⟩), p.2)
    | '[' :: r =>
      (match dropJWs r with
       | ']' :: r2 => some (.val (.arr []), r2)
       | r2 =>
         match parseJAux fuel 1 r2 with
         | some (.items vs, r3) => some (.val (.arr vs), r3)
         | _ => none)
    | '\x7b' :: r =>
      (match dropJWs r with
       | '\x7d' :: r2 => some (.val (.obj []), r2)
       | r2 =>
         match parseJAux fuel 2 r2 with
         | some (.fields fs, r3) => some (.val (.obj (objOfList fs)), r3)
         | _ => none)
    | c :: r =>
      if c == '-' || c.isDigit then
        (parseJNum (c :: r)).map fun p => (.val (.num p.1), p.2)
      else none
    | [] => none
  | fuel + 1, 1, cs =>
    match parseJAux fuel 0 cs with
    | some (.val v, r) =>
      (match dropJWs r with
       | ',' :: r2 =>
         (match parseJAux fuel 1 r2 with
          | some (.items vs, r3) => some (.items (v :: vs), r3)
          | _ => none)
       | ']' :: r2 => some (.items [v], r2)
       | _ => none)
    | _ => none
  | fuel + 1, 2, cs =>
    match dropJWs cs with
    | '"' :: r =>
      (match parseStrChars r with
       | some (key, r1) =>
         (match dropJWs r1 with
          | ':' :: r2 =>
            (match parseJAux fuel 0 r2 with
             | some (.val v, r3) =>
               (match dropJWs r3 with
                | ',' :: r4 =>
                  (match parseJAux fuel 2 r4 with
                   | some (.fields fs, r5) => some (.fields ((⟨key⟩, v) :: fs), r5)
                   | _ => none)
                | '\x7d' :: r4 => some (.fields [(⟨key⟩, v)], r4)
                | _ => none)
             | _ => none)
          | _ => none)
       | none => none)
    | _ => none
  | _ + 1, _ + 3, _ => none

/-- `json.loads`: parse a whole string as one JSON document; `none` models a
raised `json.JSONDecodeError`. -/
def loads (s : String) : Option JVal :=
  match parseJAux (2 * s.length + 2) 0 s.data with
  | some (.val v, rest) => if dropJWs rest = [] then some v else none
  | _ => none

example : loads "" = none := by rfl
example : loads "[102.5,31.2]" = some (.arr [.num (mkRat 1025 10), .num (mkRat 312 10)]) := by rfl
example : loads "POINT()" = none := by rfl
example : loads " \x7b\"type\": \"Point\", \"coordinates\": [1, 2]\x7d " =
    some (.obj [("type", .str "Point"), ("coordinates", .arr [.num 1, .num 2])]) := by rfl

/-! ## The shared coordinate walk and bounds core

`extract_coordinates` and the surrounding `type` dispatch appear three times in
the sources with identical bodies (`GeometryProcessor._extract_coordinates_from_geojson`,
`GeoJsonBatchProcessor._has_valid_coordinates`,
`GeoJsonBatchProcessor.calculate_bounds`); they are embedded once here.  The
same holds for the min/max pass over the lon/lat lists. -/

/-- `isinstance(x, (int, float))` (true for `bool` too: `bool` subclasses
`int` in Python). -/
def isNumericVal : JVal → Bool
  | .num _ => true
  | .bool _ => true
  | _ => false

/-- The nested-list walk `extract_coordinates`: a non-empty list whose first
element is numeric is appended whole as one point (extra components are
retained, not trimmed); any other list is recursed into element-wise; a
non-list contributes nothing.  `none` models `RecursionError`. -/
def extractCoords : Nat → JVal → Option (List JVal)
  | 0, _ => none
  | fuel + 1, .arr xs =>
    match xs with
    | [] => some []
    | h :: _ =>
      if isNumericVal h then some [.arr xs]
      else (xs.mapM (extractCoords fuel)).map List.flatten
  | _ + 1, _ => some []

/-- `d.get(k, default)`: `AttributeError` when the receiver is not a dict
(Python strings/lists have no `.get`). -/
def pyGet (j : JVal) (k : String) (dflt : JVal) : PyResult JVal :=
  match j with
  | .obj fs =>
    match fs.find? (fun p => p.1 == k) with
    | some p => .ok p.2
    | none => .ok dflt
  | _ => .error (.attributeError "get")

/-- `.lower()` on a value expected to be a string (`AttributeError` raised
otherwise, e.g. for a numeric `"type"` value). -/
def pyLower (j : JVal) : PyResult String :=
  match j with
  | .str s => .ok (pyLowerStr s)
  | _ => .error (.attributeError "lower")

def liftExtract {α : Type} : Option α → PyResult α
  | some x => .ok x
  | none => .error .recursionError

/-- The `type` dispatch plus walk of `_extract_coordinates_from_geojson`:
FeatureCollection → every feature's `geometry.coordinates`; Feature → its
`geometry.coordinates`; otherwise the top-level `coordinates`.  Iterating a
non-list `features` value is collapsed to an error (Python would iterate dict
keys or string characters and then fail at `.get` with `AttributeError`). -/
def geojsonCoordinates (fuel : Nat) (data : JVal) : PyResult (List JVal) := do
  let tRaw ← pyGet data "type" (.str "")
  let ty ← pyLower tRaw
  if ty = "featurecollection" then
    let fRaw ← pyGet data "features" (.arr [])
    match fRaw with
    | .arr features => do
      let parts ← features.mapM (fun feature => do
        let geom ← pyGet feature "geometry" (.obj [])
        let coords ← pyGet geom "coordinates" (.arr [])
        liftExtract (extractCoords fuel coords))
      return parts.flatten
    | _ => .error (.typeError "features not iterable")
  else if ty = "feature" then do
    let geom ← pyGet data "geometry" (.obj [])
    let coords ← pyGet geom "coordinates" (.arr [])
    liftExtract (extractCoords fuel coords)
  else do
    let coords ← pyGet data "coordinates" (.arr [])
    liftExtract (extractCoords fuel coords)

/-- `coord[i]` (Python subscript): list element, one-character string for a
string receiver; `TypeError` for non-subscriptable values (floats!). -/
def pySubscript (j : JVal) (i : Nat) : PyResult JVal :=
  match j with
  | .arr xs =>
    match xs.get? i with
    | some v => .ok v
    | none => .error (.indexError "list index out of range")
  | .str s =>
    match s.data.get? i with
    | some c => .ok (.str ⟨[c]⟩)
    | none => .error (.indexError "string index out of range")
  | _ => .error (.typeError "object is not subscriptable")

/-- Numeric value of a coordinate component for `min`/`max`/arithmetic; a
non-numeric component models the `TypeError` Python's `min` raises when
comparing a number with a non-number.  (The exotic all-strings/all-lists case,
which Python would order lexicographically, is collapsed to an error; no
claim's input reaches it.) -/
def pyNumVal (j : JVal) : PyResult ℚ :=
  match j with
  | .num q => .ok q
  | .bool b => .ok (if b then 1 else 0)
  | _ => .error (.typeError "unorderable coordinate value")

/-- `coord[i]` as a number: the elementwise step of the
`[coord[i] for coord in coordinates]` comprehensions feeding `min`/`max`. -/
def componentVal (i : Nat) (c : JVal) : PyResult ℚ :=
  pySubscript c i >>= pyNumVal

/-- The min/max pass of `calculate_bounds` (excel tool lines 212–216; GeoJSON
tool lines 119–123, verbatim the same): build the lon list, then the lat
list, then take plain `min`/`max`.  Returns
`(min_lon, max_lon, min_lat, max_lat)`. -/
def coordsExtrema (coordinates : List JVal) : PyResult (ℚ × ℚ × ℚ × ℚ) := do
  let lons ← coordinates.mapM (componentVal 0)
  let lats ← coordinates.mapM (componentVal 1)
  match lons, lats with
  | l0 :: ls, t0 :: ts =>
    return (ls.foldl min l0, ls.foldl max l0, ts.foldl min t0, ts.foldl max t0)
  | _, _ => .error (.valueError "没有有效的坐标数据")

/-! ## GeometryProcessor (the excel/tabular tool) -/

namespace GeometryProcessor

def wktKeywords : List String :=
  ["POINT", "LINESTRING", "POLYGON", "MULTIPOINT", "MULTILINESTRING", "MULTIPOLYGON"]

def dropKw : List Char → List Char → Option (List Char)
  | cs, [] => some cs
  | [], _ :: _ => none
  | c :: cs, k :: ks => if c == k then dropKw cs ks else none

/-- `re.match(r'^KW\s*\(.*\)$', cleaned.upper())`: the keyword, optional
whitespace, `'('`, then anything ending in `')'`.  Regex `.` excludes
newlines, but `cleaned` has none (whitespace runs were collapsed to
spaces). -/
def matchesWktKw (cs : List Char) (kw : String) : Bool :=
  match dropKw cs kw.data with
  | none => false
  | some rest =>
    match rest.dropWhile isPyWs with
    | '(' :: body => !body.isEmpty && body.getLast? == some ')'
    | _ => false

/-- `_is_geojson`: parses as JSON and is a dict containing the key
`"type"`. -/
def is_geojson (s : String) : Bool :=
  match loads s with
  | some (.obj fields) => fields.any (fun p => p.1 == "type")
  | _ => false

/-- `_is_wkt`: collapse whitespace, uppercase, try the six keyword
patterns. -/
def is_wkt (s : String) : Bool :=
  let cleaned := collapseWs (pyStrip s)
  wktKeywords.any (matchesWktKw (pyUpper cleaned).data)

/-- `_is_json`: `json.loads` succeeds. -/
def is_json (s : String) : Bool := (loads s).isSome

/-- The shape `^\s*O\s*NUM\s*,\s*NUM\s*C\s*$` of the `_is_coordinate_pair`
and `_is_coordinate_array` regexes, with opener `O` and closer `C`. -/
def matchDelimPair (cs : List Char) (opener closer : Char) : Bool :=
  match cs.dropWhile isPyWs with
  | c :: r =>
    if c == opener then
      match matchNumTok (r.dropWhile isPyWs) with
      | some (_, r1) =>
        (match r1.dropWhile isPyWs with
         | ',' :: r2 =>
           (match matchNumTok (r2.dropWhile isPyWs) with
            | some (_, r3) =>
              (match r3.dropWhile isPyWs with
               | c2 :: r4 => c2 == closer && (r4.dropWhile isPyWs).isEmpty
               | [] => false)
            | none => false)
         | _ => false)
      | none => false
    else false
  | [] => false

def is_coordinate_pair (s : String) : Bool := matchDelimPair s.data '(' ')'

def is_coordinate_array (s : String) : Bool := matchDelimPair s.data '[' ']'

/-- `_parse_geojson`: `json.loads`, then the coordinate walk; any exception is
re-raised as `ValueError("GeoJSON解析错误: ...")`. -/
def parse_geojson (fuel : Nat) (s : String) : PyResult (List JVal) :=
  match loads s with
  | none => .error (.valueError "GeoJSON解析错误")
  | some data =>
    match geojsonCoordinates fuel data with
    | .ok cs => .ok cs
    | .error _ => .error (.valueError "GeoJSON解析错误")

/-- `_parse_wkt`: harvest every `<number> <number>` token pair from the whole
body, ignoring ring/paren structure; raises exactly when no pair is found.
(`float()` cannot fail on a token of that regex — `float("1.") = 1.0` — so
the skip-invalid `continue` and the second emptiness check of the source are
dead code.) -/
def parse_wkt (s : String) : PyResult (List JVal) :=
  let pairs := findPairs (s.length + 1) s.data
  if pairs.isEmpty then .error (.valueError "WKT解析错误: 无法提取WKT坐标")
  else .ok (pairs.map fun p => .arr [.num (numTokVal p.1), .num (numTokVal p.2)])

/-- `_parse_json`: a bare JSON list is wrapped as the coordinates list
unchanged (NOT flattened); a dict goes through the GeoJSON walk; any other
JSON value raises. -/
def parse_json (fuel : Nat) (s : String) : PyResult (List JVal) :=
  match loads s with
  | none => .error (.valueError "JSON解析错误")
  | some (.arr xs) => .ok xs
  | some (.obj fs) =>
    match geojsonCoordinates fuel (.obj fs) with
    | .ok cs => .ok cs
    | .error _ => .error (.valueError "JSON解析错误")
  | some _ => .error (.valueError "JSON解析错误: 不支持的JSON格式")

/-- `_parse_coordinate_pair`: the first two number tokens, one point. -/
def parse_coordinate_pair (s : String) : PyResult (List JVal) :=
  match findNumToks (s.length + 1) s.data with
  | t1 :: t2 :: _ => .ok [.arr [.num (numTokVal t1), .num (numTokVal t2)]]
  | _ => .error (.valueError "坐标对解析错误")

/-- `_parse_coordinate_array`: identical body to `_parse_coordinate_pair`. -/
def parse_coordinate_array (s : String) : PyResult (List JVal) :=
  match findNumToks (s.length + 1) s.data with
  | t1 :: t2 :: _ => .ok [.arr [.num (numTokVal t1), .num (numTokVal t2)]]
  | _ => .error (.valueError "坐标数组解析错误")

/-- The pure classification cascade of `detect_geometry_format` (the branch
conditions only; every `_is_*` test is total).  The cell is `Option String`,
`none` modelling a pandas `NaN` cell (`pd.isna`); the emptiness test fires on
`None`/`NaN`/`""` BEFORE the strip. -/
def detect_tag (cell : Option String) : String :=
  match cell with
  | none => "empty"
  | some s =>
    if s = "" then "empty"
    else if is_geojson (pyStrip s) then "geojson"
    else if is_wkt (pyStrip s) then "wkt"
    else if is_json (pyStrip s) then "json"
    else if is_coordinate_pair (pyStrip s) then "coordinate_pair"
    else if is_coordinate_array (pyStrip s) then "coordinate_array"
    else "unknown"

/-- `detect_geometry_format`: the same cascade, but each matched branch also
runs its parser, whose exceptions propagate out of the function.  The parsed
dict is modelled by its `"coordinates"` list — the only key callers read
(empty for the `{}` of the empty/unknown branches). -/
def detect_geometry_format (fuel : Nat) (cell : Option String) :
    PyResult (String × List JVal) :=
  match cell with
  | none => .ok ("empty", [])
  | some s =>
    if s = "" then .ok ("empty", [])
    else if is_geojson (pyStrip s) then do
      let c ← parse_geojson fuel (pyStrip s)
      return ("geojson", c)
    else if is_wkt (pyStrip s) then do
      let c ← parse_wkt (pyStrip s)
      return ("wkt", c)
    else if is_json (pyStrip s) then do
      let c ← parse_json fuel (pyStrip s)
      return ("json", c)
    else if is_coordinate_pair (pyStrip s) then do
      let c ← parse_coordinate_pair (pyStrip s)
      return ("coordinate_pair", c)
    else if is_coordinate_array (pyStrip s) then do
      let c ← parse_coordinate_array (pyStrip s)
      return ("coordinate_array", c)
    else .ok ("unknown", [])

/-- The bounds dict built by `GeometryProcessor.calculate_bounds`
(lines 218–230): the eight corner fields plus `center`, `width`,
`height`, in source order. -/
structure BoundsFields where
  top_left_longitude : ℚ
  top_left_latitude : ℚ
  bottom_left_longitude : ℚ
  bottom_left_latitude : ℚ
  top_right_longitude : ℚ
  top_right_latitude : ℚ
  bottom_right_longitude : ℚ
  bottom_right_latitude : ℚ
  center : List ℚ
  width : ℚ
  height : ℚ
deriving DecidableEq, Repr

/-- `GeometryProcessor.calculate_bounds`: raises on an empty list, otherwise
one min/max pass and the corner/center/size fields. -/
def calculate_bounds (coordinates : List JVal) : PyResult BoundsFields :=
  if coordinates.isEmpty then .error (.valueError "没有有效的坐标数据")
  else do
    let e ← coordsExtrema coordinates
    let (min_lon, max_lon, min_lat, max_lat) := e
    return ⟨min_lon, max_lat, min_lon, min_lat, max_lon, max_lat, max_lon, min_lat,
      [(min_lon + max_lon) / 2, (min_lat + max_lat) / 2],
      max_lon - min_lon, max_lat - min_lat⟩

end GeometryProcessor

/-! ## GeoJsonBatchProcessor (the GeoJSON tool) -/

namespace GeoJsonBatchProcessor

/-- The bounds dict of `GeoJsonBatchProcessor.calculate_bounds`
(lines 125–144): the `bounds` sub-dict, the four corners (kept in the source
under the Chinese keys 西南角 SW / 西北角 NW / 东北角 NE / 东南角 SE), `bbox`,
`center`, `width`, `height`. -/
structure GeoBoundsInfo where
  min_lon : ℚ
  max_lon : ℚ
  min_lat : ℚ
  max_lat : ℚ
  corner_sw : List ℚ
  corner_nw : List ℚ
  corner_ne : List ℚ
  corner_se : List ℚ
  bbox : List ℚ
  center : List ℚ
  width : ℚ
  height : ℚ
deriving DecidableEq, Repr

/-- `GeoJsonBatchProcessor.calculate_bounds`: walk the GeoJSON value for
coordinates, raise when none, then the min/max pass and the derived dict. -/
def calculate_bounds (fuel : Nat) (geojson_data : JVal) : PyResult GeoBoundsInfo := do
  let coordinates ← geojsonCoordinates fuel geojson_data
  if coordinates.isEmpty then .error (.valueError "未找到有效的坐标数据")
  else do
    let e ← coordsExtrema coordinates
    let (min_lon, max_lon, min_lat, max_lat) := e
    return ⟨min_lon, max_lon, min_lat, max_lat,
      [min_lon, min_lat], [min_lon, max_lat], [max_lon, max_lat], [max_lon, min_lat],
      [min_lon, min_lat, max_lon, max_lat],
      [(min_lon + max_lon) / 2, (min_lat + max_lat) / 2],
      max_lon - min_lon, max_lat - min_lat⟩

/-- A list of rationals as a JSON array. -/
def qlist (l : List ℚ) : JVal := .arr (l.map .num)

/-- `create_rectangle_geojson`: the emitted FeatureCollection with one Polygon
feature whose ring is `[SW, NW, NE, SE, SW]`. -/
def create_rectangle_geojson (b : GeoBoundsInfo) (source_filename : String) : JVal :=
  let ring := [b.corner_sw, b.corner_nw, b.corner_ne, b.corner_se, b.corner_sw]
  .obj [
    ("type", .str "FeatureCollection"),
    ("features", .arr [
      .obj [
        ("type", .str "Feature"),
        ("geometry", .obj [
          ("type", .str "Polygon"),
          ("coordinates", .arr [.arr (ring.map qlist)])]),
        ("properties", .obj [
          ("name", .str (source_filename ++ "四角边框矩形面")),
          ("description", .str ("通过" ++ source_filename ++ "边界数据生成的矩形面")),
          ("source_file", .str source_filename),
          ("bounds", .obj [
            ("min_lon", .num b.min_lon), ("max_lon", .num b.max_lon),
            ("min_lat", .num b.min_lat), ("max_lat", .num b.max_lat)]),
          ("center", qlist b.center),
          ("width", .num b.width),
          ("height", .num b.height),
          ("bbox", qlist b.bbox)])]])]

end GeoJsonBatchProcessor

/-! ## Path helpers (`os.path` / `pathlib`) -/

/-- `os.path.basename`: the final path component. -/
def basename (p : String) : String :=
  ⟨(p.data.reverse.takeWhile (fun c => !(c == '/'))).reverse⟩

/-- `Path(p).suffix`, which is also the extension of `os.path.splitext`: from
the last dot of the final component, unless that dot is its first character
(a leading-dot name has no suffix). -/
def pathSuffix (p : String) : String :=
  let name := (basename p).data
  let ext := name.reverse.takeWhile (fun c => !(c == '.'))
  if ext.length = name.length then ""
  else if ext.length + 1 = name.length then ""
  else ⟨'.' :: ext.reverse⟩

/-- `os.path.splitext(basename p)[0]`: the file name without its suffix. -/
def pathStem (p : String) : String :=
  let name := (basename p).data
  ⟨name.take (name.length - (pathSuffix p).length)⟩

/-- Readable rendering of a raised exception, `str(e)` in the source's
`except` handlers. -/
def errMsgStr : PyErr → String
  | .valueError m => m
  | .typeError m => m
  | .indexError m => m
  | .attributeError m => m
  | .recursionError => "maximum recursion depth exceeded"

/-! ## GeoJSON batch driver -/

namespace GeoJsonBatchProcessor

/-- An input file as the driver sees it: its path, whether it exists on disk,
and its raw text content (file size = content length; a read/decode failure
surfaces through `loads`). -/
structure GeoFile where
  path : String
  onDisk : Bool
  content : String

def supported_formats : List String := [".geojson", ".json"]

def valid_geojson_types : List String :=
  ["point", "linestring", "polygon", "multipoint", "multilinestring",
   "multipolygon", "geometrycollection", "feature", "featurecollection"]

/-- `validate_geojson_file`: existence, extension, size, JSON parse, dict
shape, `type` key, known type value, and at least one extractable coordinate,
in source order.  An exception inside (e.g. `.lower()` on a non-string
`type`, or a `TypeError` from the walk) hits the generic handler and yields
the failure `"读取文件时出错"`. -/
def validate_geojson_file (fuel : Nat) (f : GeoFile) :
    Bool × String × Option JVal :=
  if !f.onDisk then (false, "文件不存在: " ++ f.path, none)
  else if !(supported_formats.contains (pyLowerStr (pathSuffix f.path))) then
    (false, "不支持的文件格式: " ++ pyLowerStr (pathSuffix f.path), none)
  else if f.content.length = 0 then (false, "文件为空: " ++ f.path, none)
  else
    match loads f.content with
    | none => (false, "JSON格式错误: " ++ f.path, none)
    | some data =>
      match data with
      | .obj fields =>
        if !(fields.any (fun p => p.1 == "type")) then
          (false, "缺少必需的type字段: " ++ f.path, none)
        else
          (match pyGet data "type" (.str "") with
           | .error _ => (false, "读取文件时出错: " ++ f.path, none)
           | .ok tRaw =>
             match pyLower tRaw with
             | .error _ => (false, "读取文件时出错: " ++ f.path, none)
             | .ok ty =>
               if !(valid_geojson_types.contains ty) then
                 (false, "无效的GeoJSON类型: " ++ f.path, none)
               else
                 match geojsonCoordinates fuel data with
                 | .error _ => (false, "读取文件时出错: " ++ f.path, none)
                 | .ok cs =>
                   if cs.isEmpty then
                     (false, "缺少有效的坐标数据: " ++ f.path, none)
                   else (true, "", some data))
      | _ => (false, "GeoJSON数据必须是对象格式: " ++ f.path, none)

/-- Outcome of `GeoJsonBatchProcessor.process_directory`.  `abortedRun` is the
`sys.exit(1)` taken when any file fails validation, before any output is
written. -/
inductive GeoBatchResult where
  | noFiles
  | abortedRun (errorFiles : List (String × String))
  | completedRun (outputs : List (String × JVal))
      (successFiles : List String) (errorFiles : List (String × String))

/-- The output files written during a run (none on an aborted run). -/
def geoOutputs : GeoBatchResult → List (String × JVal)
  | .completedRun outs _ _ => outs
  | _ => []

/-- The modelled process exit code (`sys.exit(1)` on validation failure). -/
def geoExitCode : GeoBatchResult → Nat
  | .abortedRun _ => 1
  | _ => 0

/-- The `(path, message)` reports of the files that fail validation, in
input order (the `error_files` accumulator at the abort point). -/
def invalidGeoReports (fuel : Nat) (files : List GeoFile) :
    List (String × String) :=
  files.filterMap fun f =>
    let r := validate_geojson_file fuel f
    if r.1 then none else some (f.path, r.2.1)

/-- The validated files with their parsed data, in input order
(`valid_files`). -/
def validGeoFiles (fuel : Nat) (files : List GeoFile) : List (String × JVal) :=
  files.filterMap fun f =>
    match validate_geojson_file fuel f with
    | (true, _, some d) => some (f.path, d)
    | _ => none

/-- `GeoJsonBatchProcessor.process_directory` on an already-scanned file
list: validate every file first; if any failed, stop with `sys.exit(1)`
(zero outputs); otherwise process each valid file, catching per-file
exceptions. -/
def process_directory (fuel : Nat) (files : List GeoFile) : GeoBatchResult :=
  if files.isEmpty then .noFiles
  else
    let errs := invalidGeoReports fuel files
    if !errs.isEmpty then .abortedRun errs
    else
      let step := fun (acc : List (String × JVal) × List String × List (String × String))
                      (pf : String × JVal) =>
        let stem := pathStem pf.1
        match calculate_bounds fuel pf.2 with
        | .ok b =>
          (acc.1 ++ [(stem ++ "四角边框矩形面.geojson", create_rectangle_geojson b stem)],
           acc.2.1 ++ [basename pf.1], acc.2.2)
        | .error e => (acc.1, acc.2.1, acc.2.2 ++ [(pf.1, errMsgStr e)])
      let r := (validGeoFiles fuel files).foldl step ([], [], [])
      .completedRun r.1 r.2.1 r.2.2

end GeoJsonBatchProcessor

/-! ## Tabular (excel/CSV) batch driver -/

namespace GeometryProcessor

/-- An in-memory table: column names and rows of cells.  A cell is
`Option String`: `none` is a pandas `NaN` (blank cell); geometry cells in
scope are strings. -/
structure XTable where
  columns : List String
  rows : List (List (Option String))

/-- A tabular input file as the driver sees it (`table = none` models a read
that raises inside `pd.read_csv` / `pd.read_excel`). -/
structure XFile where
  path : String
  onDisk : Bool
  sizeZero : Bool
  table : Option XTable

def supported_excel_formats : List String := [".csv", ".xlsx", ".xls"]

/-- `validate_excel_file`: existence, extension, non-zero size, readability,
geometry column presence, in source order. -/
def validate_excel_file (gfield : String) (f : XFile) : Bool × String :=
  if !f.onDisk then (false, "文件不存在: " ++ f.path)
  else if !(supported_excel_formats.contains (pyLowerStr (pathSuffix f.path))) then
    (false, "不支持的文件格式: " ++ pyLowerStr (pathSuffix f.path))
  else if f.sizeZero then (false, "文件为空: " ++ f.path)
  else
    match f.table with
    | none => (false, "文件验证失败: " ++ f.path)
    | some t =>
      if !(t.columns.contains gfield) then
        (false, "文件中未找到" ++ gfield ++ "字段")
      else (true, "")

/-- One row of `process_excel_file` (the body of the per-row try block): the
bounds fields when they were set, and whether the row counted as an error.
An empty geometry is skipped without error; an unknown format, an empty
coordinates list, or any exception (from `detect_geometry_format` or
`calculate_bounds`) counts one row error and leaves the fields unset. -/
def processRow (fuel : Nat) (gIdx : Nat) (row : List (Option String)) :
    Option BoundsFields × Bool :=
  let cell := (row.get? gIdx).getD none
  match detect_geometry_format fuel cell with
  | .error _ => (none, true)
  | .ok (tag, coords) =>
    if tag = "empty" then (none, false)
    else if tag = "unknown" then (none, true)
    else if coords.isEmpty then (none, true)
    else
      match calculate_bounds coords with
      | .ok b => (some b, false)
      | .error _ => (none, true)

/-- `process_excel_file`: read the table, require the geometry column, then
process every row.  Returns each row paired with its (possibly unset) eight
bounds fields, the processed count and the row-error count. -/
def process_excel_file (fuel : Nat) (gfield : String) (f : XFile) :
    PyResult (List (List (Option String) × Option BoundsFields) × Nat × Nat) :=
  match f.table with
  | none => .error (.valueError ("读取文件失败: " ++ f.path))
  | some t =>
    match t.columns.findIdx? (fun c => c == gfield) with
    | none => .error (.valueError ("文件中未找到" ++ gfield ++ "字段"))
    | some gIdx =>
      let rs := t.rows.map fun row => (row, (processRow fuel gIdx row).1)
      let processed := (t.rows.filter fun row => ((processRow fuel gIdx row).1).isSome).length
      let errs := (t.rows.filter fun row => (processRow fuel gIdx row).2).length
      .ok (rs, processed, errs)

/-- Outcome of the tabular `GeometryProcessor.process_directory`. -/
inductive XBatchResult where
  | noFiles
  | abortedRun (errorFiles : List (String × String))
  | completedRun (processedCount : Nat) (successFiles : List String)
      (errorFiles : List (String × String))

/-- Files successfully processed in the run (none on an aborted run). -/
def xSuccessFiles : XBatchResult → List String
  | .completedRun _ s _ => s
  | _ => []

/-- Count of files processed to completion (zero on an aborted run). -/
def xProcessedCount : XBatchResult → Nat
  | .completedRun n _ _ => n
  | _ => 0

/-- The modelled process exit code (`sys.exit(1)` on validation failure). -/
def xExitCode : XBatchResult → Nat
  | .abortedRun _ => 1
  | _ => 0

/-- The validation-failure reports, in input order. -/
def invalidXReports (gfield : String) (files : List XFile) :
    List (String × String) :=
  files.filterMap fun f =>
    let r := validate_excel_file gfield f
    if r.1 then none else some (f.path, r.2)

/-- The files that passed validation, in input order (`valid_files`). -/
def validXFiles (gfield : String) (files : List XFile) : List XFile :=
  files.filter fun f => (validate_excel_file gfield f).1

/-- The tabular `GeometryProcessor.process_directory` on an already-scanned
file list: validate every file first; if any failed, stop with `sys.exit(1)`
before processing anything; otherwise process each file, catching per-file
exceptions. -/
def process_directory (fuel : Nat) (gfield : String) (files : List XFile) :
    XBatchResult :=
  if files.isEmpty then .noFiles
  else
    let errs := invalidXReports gfield files
    if !errs.isEmpty then .abortedRun errs
    else
      let step := fun (acc : Nat × List String × List (String × String)) (f : XFile) =>
        match process_excel_file fuel gfield f with
        | .ok _ => (acc.1 + 1, acc.2.1 ++ [basename f.path], acc.2.2)
        | .error e => (acc.1, acc.2.1, acc.2.2 ++ [(f.path, errMsgStr e)])
      let r := (validXFiles gfield files).foldl step (0, [], [])
      .completedRun r.1 r.2.1 r.2.2

end GeometryProcessor

/-! ## Inputs used by the verification -/

/-- A list of 2-D points as a coordinates list `[[lon, lat], ...]`. -/
def pointsToCoords (ps : List (ℚ × ℚ)) : List JVal :=
  ps.map fun p => .arr [.num p.1, .num p.2]

/-- A MultiPoint GeoJSON object holding the given points. -/
def multiPointJson (ps : List (ℚ × ℚ)) : JVal :=
  .obj [("type", .str "MultiPoint"), ("coordinates", .arr (pointsToCoords ps))]

/-- The corners SW, NW, NE, SE of an excel bounds record, as points. -/
def cornersOf (b : GeometryProcessor.BoundsFields) : List (ℚ × ℚ) :=
  [(b.bottom_left_longitude, b.bottom_left_latitude),
   (b.top_left_longitude, b.top_left_latitude),
   (b.top_right_longitude, b.top_right_latitude),
   (b.bottom_right_longitude, b.bottom_right_latitude)]

/-- Number of components of an extracted point (a Python list value). -/
def componentCount : JVal → Nat
  | .arr xs => xs.length
  | _ => 0

/-- Scenario A input: the Polygon of spec §8. -/
def scenarioA : JVal :=
  .obj [("type", .str "Polygon"),
        ("coordinates", .arr [.arr [.arr [.num 10, .num 10], .arr [.num 10, .num 20],
          .arr [.num 30, .num 20], .arr [.num 30, .num 10], .arr [.num 10, .num 10]]])]

/-- The five points `_parse_wkt` extracts from scenario B's MULTIPOLYGON. -/
def wktScenarioPoints : List JVal :=
  [.arr [.num 1, .num 1], .arr [.num 2, .num 1], .arr [.num 2, .num 2],
   .arr [.num 1, .num 2], .arr [.num 1, .num 1]]

/-- Scenario C: a one-row CSV table whose geometry cell is the bare JSON
array `"[102.5,31.2]"`. -/
def scenarioCFile : GeometryProcessor.XFile :=
  ⟨"data.csv", true, false, some ⟨["geom"], [[some "[102.5,31.2]"]]⟩⟩

/-- A readable CSV file whose table lacks the `geom` column. -/
def xFileMissingColumn : GeometryProcessor.XFile :=
  ⟨"a.csv", true, false, some ⟨["name"], [[some "x"]]⟩⟩

/-- A well-formed CSV file with one coordinate-pair geometry row. -/
def xFileGood : GeometryProcessor.XFile :=
  ⟨"b.csv", true, false, some ⟨["geom"], [[some "(1, 2)"]]⟩⟩

/-- Scenario E batch member: a valid Point file. -/
def geoFileA : GeoJsonBatchProcessor.GeoFile :=
  ⟨"a.geojson", true, "\x7b\"type\":\"Point\",\"coordinates\":[1,2]\x7d"⟩

/-- Scenario E batch member: a valid Polygon file. -/
def geoFileB : GeoJsonBatchProcessor.GeoFile :=
  ⟨"b.geojson", true,
   "\x7b\"type\":\"Polygon\",\"coordinates\":[[[10,10],[10,20],[30,20],[30,10],[10,10]]]\x7d"⟩

/-- Scenario E batch member: a file whose content is not JSON. -/
def geoFileC : GeoJsonBatchProcessor.GeoFile := ⟨"c.geojson", true, "not a geojson"⟩

section ConcreteEvaluations

example : GeometryProcessor.detect_geometry_format 9 (some "[102.5,31.2]") =
    .ok ("json", [.num (mkRat 1025 10), .num (mkRat 312 10)]) := by rfl

example : GeometryProcessor.detect_geometry_format 0 (some "POINT()") =
    .error (.valueError "WKT解析错误: 无法提取WKT坐标") := by rfl

example : GeometryProcessor.parse_wkt "MULTIPOLYGON(((1 1, 2 1, 2 2, 1 2, 1 1)))" =
    .ok [.arr [.num 1, .num 1], .arr [.num 2, .num 1], .arr [.num 2, .num 2],
         .arr [.num 1, .num 2], .arr [.num 1, .num 1]] := by rfl

example : GeometryProcessor.detect_tag (some " ") = "unknown" := by rfl

example : GeometryProcessor.detect_tag (some "  \t ") = "unknown" := by rfl

example : isErr (GeometryProcessor.calculate_bounds [.num (mkRat 1025 10), .num (mkRat 312 10)]) = true := by rfl

example : GeometryProcessor.detect_tag (some "(12.5, 45.25)") = "coordinate_pair" := by rfl

example : GeometryProcessor.detect_geometry_format 0 (some "(12.5, 45.25)") =
    .ok ("coordinate_pair", [.arr [.num (mkRat 125 10), .num (mkRat 4525 100)]]) := by rfl

example : GeometryProcessor.parse_geojson 9 "\x7b\"type\":\"Point\",\"coordinates\":[1,2,3]\x7d" =
    .ok [.arr [.num 1, .num 2, .num 3]] := by rfl

example : GeometryProcessor.parse_geojson 9 "\x7b\"type\":\"Point\"\x7d" = .ok [] := by rfl

example : GeoJsonBatchProcessor.calculate_bounds 9
    (.obj [("type", .str "Polygon"),
           ("coordinates", .arr [.arr [.arr [.num 10, .num 10], .arr [.num 10, .num 20],
             .arr [.num 30, .num 20], .arr [.num 30, .num 10], .arr [.num 10, .num 10]]])]) =
    .ok ⟨10, 30, 10, 20, [10, 10], [10, 20], [30, 20], [30, 10], [10, 10, 30, 20],
      [(10 + 30) / 2, (10 + 20) / 2], 30 - 10, 20 - 10⟩ := by rfl

end ConcreteEvaluations

/-! ## General lemmas about the bounds core -/

lemma foldl_min_le (l : List ℚ) : ∀ a x : ℚ, (x = a ∨ x ∈ l) → l.foldl min a ≤ x := by
  induction l with
  | nil =>
    intro a x h
    rcases h with rfl | h
    · exact le_refl x
    · cases h
  | cons y t ih =>
    intro a x h
    simp only [List.foldl_cons]
    rcases h with rfl | h
    · exact le_trans (ih (min x y) (min x y) (Or.inl rfl)) (min_le_left x y)
    · rcases List.mem_cons.mp h with rfl | hx
      · exact le_trans (ih (min a x) (min a x) (Or.inl rfl)) (min_le_right a x)
      · exact ih (min a y) x (Or.inr hx)

lemma le_foldl_max (l : List ℚ) : ∀ a x : ℚ, (x = a ∨ x ∈ l) → x ≤ l.foldl max a := by
  induction l with
  | nil =>
    intro a x h
    rcases h with rfl | h
    · exact le_refl x
    · cases h
  | cons y t ih =>
    intro a x h
    simp only [List.foldl_cons]
    rcases h with rfl | h
    · exact le_trans (le_max_left x y) (ih (max x y) (max x y) (Or.inl rfl))
    · rcases List.mem_cons.mp h with rfl | hx
      · exact le_trans (le_max_right a x) (ih (max a x) (max a x) (Or.inl rfl))
      · exact ih (max a y) x (Or.inr hx)

lemma foldl_min_le_foldl_max (l : List ℚ) (a : ℚ) :
    l.foldl min a ≤ l.foldl max a :=
  le_trans (foldl_min_le l a a (Or.inl rfl)) (le_foldl_max l a a (Or.inl rfl))

lemma mapM_componentVal_fst (ps : List (ℚ × ℚ)) :
    (pointsToCoords ps).mapM (componentVal 0) = .ok (ps.map Prod.fst) := by
  induction ps with
  | nil => rfl
  | cons p t ih =>
    simp only [pointsToCoords, List.map_cons] at ih ⊢
    rw [List.mapM_cons, ih]
    rfl

lemma mapM_componentVal_snd (ps : List (ℚ × ℚ)) :
    (pointsToCoords ps).mapM (componentVal 1) = .ok (ps.map Prod.snd) := by
  induction ps with
  | nil => rfl
  | cons p t ih =>
    simp only [pointsToCoords, List.map_cons] at ih ⊢
    rw [List.mapM_cons, ih]
    rfl

lemma coordsExtrema_points (p0 : ℚ × ℚ) (ps : List (ℚ × ℚ)) :
    coordsExtrema (pointsToCoords (p0 :: ps)) =
      .ok ((ps.map Prod.fst).foldl min p0.1, (ps.map Prod.fst).foldl max p0.1,
           (ps.map Prod.snd).foldl min p0.2, (ps.map Prod.snd).foldl max p0.2) := by
  have h0 := mapM_componentVal_fst (p0 :: ps)
  have h1 := mapM_componentVal_snd (p0 :: ps)
  simp only [List.map_cons] at h0 h1
  simp only [coordsExtrema, h0, h1]
  rfl

lemma calculate_bounds_points (p0 : ℚ × ℚ) (ps : List (ℚ × ℚ)) :
    GeometryProcessor.calculate_bounds (pointsToCoords (p0 :: ps)) =
      .ok ⟨(ps.map Prod.fst).foldl min p0.1, (ps.map Prod.snd).foldl max p0.2,
           (ps.map Prod.fst).foldl min p0.1, (ps.map Prod.snd).foldl min p0.2,
           (ps.map Prod.fst).foldl max p0.1, (ps.map Prod.snd).foldl max p0.2,
           (ps.map Prod.fst).foldl max p0.1, (ps.map Prod.snd).foldl min p0.2,
           [((ps.map Prod.fst).foldl min p0.1 + (ps.map Prod.fst).foldl max p0.1) / 2,
            ((ps.map Prod.snd).foldl min p0.2 + (ps.map Prod.snd).foldl max p0.2) / 2],
           (ps.map Prod.fst).foldl max p0.1 - (ps.map Prod.fst).foldl min p0.1,
           (ps.map Prod.snd).foldl max p0.2 - (ps.map Prod.snd).foldl min p0.2⟩ := by
  have hne : (pointsToCoords (p0 :: ps)).isEmpty = false := by
    simp [pointsToCoords]
  simp only [GeometryProcessor.calculate_bounds, hne, coordsExtrema_points]
  rfl

/-- `extract_coordinates` on a list of well-formed 2-D points returns exactly
those points (each is a list with numeric head, so each is taken whole). -/
lemma mapM_extractCoords_points (n : Nat) (ps : List (ℚ × ℚ)) :
    (pointsToCoords ps).mapM (extractCoords (n + 1)) =
      some (ps.map fun p => [JVal.arr [.num p.1, .num p.2]]) := by
  induction ps with
  | nil => rfl
  | cons p t ih =>
    simp only [pointsToCoords, List.map_cons] at ih ⊢
    rw [List.mapM_cons, ih]
    rfl

lemma flatten_map_singleton {α β : Type} (f : α → β) :
    ∀ l : List α, (l.map fun x => [f x]).flatten = l.map f := by
  intro l
  induction l with
  | nil => rfl
  | cons x t ih => simp only [List.map_cons, List.flatten_cons, ih, List.singleton_append]

lemma extractCoords_pointList (n : Nat) (p0 : ℚ × ℚ) (ps : List (ℚ × ℚ)) :
    extractCoords (n + 2) (.arr (pointsToCoords (p0 :: ps))) =
      some (pointsToCoords (p0 :: ps)) := by
  have hm := mapM_extractCoords_points n (p0 :: ps)
  simp only [pointsToCoords, List.map_cons] at hm ⊢
  rw [show (n + 2) = (n + 1) + 1 from rfl]
  simp only [extractCoords, isNumericVal]
  rw [hm]
  simp only [Bool.false_eq_true, if_false, Option.map_some']
  congr 1
  simpa using
    flatten_map_singleton (fun p : ℚ × ℚ => JVal.arr [.num p.1, .num p.2]) (p0 :: ps)

lemma geojsonCoordinates_multiPoint (n : Nat) (p0 : ℚ × ℚ) (ps : List (ℚ × ℚ)) :
    geojsonCoordinates (n + 2) (multiPointJson (p0 :: ps)) =
      .ok (pointsToCoords (p0 :: ps)) := by
  simp only [geojsonCoordinates, multiPointJson]
  rw [show pyGet (JVal.obj [("type", .str "MultiPoint"),
        ("coordinates", .arr (pointsToCoords (p0 :: ps)))]) "type" (.str "") =
      .ok (.str "MultiPoint") from rfl]
  rw [show pyGet (JVal.obj [("type", .str "MultiPoint"),
        ("coordinates", .arr (pointsToCoords (p0 :: ps)))]) "coordinates" (.arr []) =
      .ok (.arr (pointsToCoords (p0 :: ps))) from rfl]
  simp only [Bind.bind, Except.bind, pyLower, pyLowerStr]
  rw [extractCoords_pointList n p0 ps]
  rfl

lemma geojson_calculate_bounds_points (n : Nat) (p0 : ℚ × ℚ) (ps : List (ℚ × ℚ)) :
    GeoJsonBatchProcessor.calculate_bounds (n + 2) (multiPointJson (p0 :: ps)) =
      .ok ⟨(ps.map Prod.fst).foldl min p0.1, (ps.map Prod.fst).foldl max p0.1,
           (ps.map Prod.snd).foldl min p0.2, (ps.map Prod.snd).foldl max p0.2,
           [(ps.map Prod.fst).foldl min p0.1, (ps.map Prod.snd).foldl min p0.2],
           [(ps.map Prod.fst).foldl min p0.1, (ps.map Prod.snd).foldl max p0.2],
           [(ps.map Prod.fst).foldl max p0.1, (ps.map Prod.snd).foldl max p0.2],
           [(ps.map Prod.fst).foldl max p0.1, (ps.map Prod.snd).foldl min p0.2],
           [(ps.map Prod.fst).foldl min p0.1, (ps.map Prod.snd).foldl min p0.2,
            (ps.map Prod.fst).foldl max p0.1, (ps.map Prod.snd).foldl max p0.2],
           [((ps.map Prod.fst).foldl min p0.1 + (ps.map Prod.fst).foldl max p0.1) / 2,
            ((ps.map Prod.snd).foldl min p0.2 + (ps.map Prod.snd).foldl max p0.2) / 2],
           (ps.map Prod.fst).foldl max p0.1 - (ps.map Prod.fst).foldl min p0.1,
           (ps.map Prod.snd).foldl max p0.2 - (ps.map Prod.snd).foldl min p0.2⟩ := by
  simp only [GeoJsonBatchProcessor.calculate_bounds, Bind.bind, Except.bind,
    geojsonCoordinates_multiPoint]
  have hne : (pointsToCoords (p0 :: ps)).isEmpty = false := by
    simp [pointsToCoords]
  simp only [hne, coordsExtrema_points]
  rfl

/-! ## C1: bounds contain every input point -/

/-- C1: for every non-empty list of 2-D points, the bounds computed by the
shared bounds calculator contain every point.  For the excel tool's
`calculate_bounds`, `bottom_left_longitude` is `min_lon`,
`bottom_right_longitude` is `max_lon`, `bottom_left_latitude` is `min_lat`
and `top_left_latitude` is `max_lat`; the GeoJSON tool's `calculate_bounds`
names them directly (stated here on a MultiPoint wrapping of the same
points, with any sufficient recursion fuel `n + 2`). -/
theorem bounds_contain_every_point (ps : List (ℚ × ℚ)) (p : ℚ × ℚ) (n : Nat)
    (hp : p ∈ ps) :
    (∃ b, GeometryProcessor.calculate_bounds (pointsToCoords ps) = .ok b ∧
       b.bottom_left_longitude ≤ p.1 ∧ p.1 ≤ b.bottom_right_longitude ∧
       b.bottom_left_latitude ≤ p.2 ∧ p.2 ≤ b.top_left_latitude) ∧
    (∃ g, GeoJsonBatchProcessor.calculate_bounds (n + 2) (multiPointJson ps) = .ok g ∧
       g.min_lon ≤ p.1 ∧ p.1 ≤ g.max_lon ∧ g.min_lat ≤ p.2 ∧ p.2 ≤ g.max_lat) := by
  obtain ⟨p0, t, rfl⟩ : ∃ p0 t, ps = p0 :: t := by
    cases ps with
    | nil => cases hp
    | cons a l => exact ⟨a, l, rfl⟩
  have hfst : p.1 = p0.1 ∨ p.1 ∈ t.map Prod.fst := by
    rcases List.mem_cons.mp hp with rfl | h
    · exact Or.inl rfl
    · exact Or.inr (List.mem_map_of_mem Prod.fst h)
  have hsnd : p.2 = p0.2 ∨ p.2 ∈ t.map Prod.snd := by
    rcases List.mem_cons.mp hp with rfl | h
    · exact Or.inl rfl
    · exact Or.inr (List.mem_map_of_mem Prod.snd h)
  constructor
  · exact ⟨_, calculate_bounds_points p0 t,
      foldl_min_le _ _ _ hfst, le_foldl_max _ _ _ hfst,
      foldl_min_le _ _ _ hsnd, le_foldl_max _ _ _ hsnd⟩
  · exact ⟨_, geojson_calculate_bounds_points n p0 t,
      foldl_min_le _ _ _ hfst, le_foldl_max _ _ _ hfst,
      foldl_min_le _ _ _ hsnd, le_foldl_max _ _ _ hsnd⟩

/-- Witness for C1 at the concrete point list `[(1, 2), (3, 4)]` and point
`(3, 4)`. -/
theorem bounds_contain_every_point_witness :
    (∃ b, GeometryProcessor.calculate_bounds (pointsToCoords [(1, 2), (3, 4)]) = .ok b ∧
       b.bottom_left_longitude ≤ (3 : ℚ) ∧ (3 : ℚ) ≤ b.bottom_right_longitude ∧
       b.bottom_left_latitude ≤ (4 : ℚ) ∧ (4 : ℚ) ≤ b.top_left_latitude) ∧
    (∃ g, GeoJsonBatchProcessor.calculate_bounds 9 (multiPointJson [(1, 2), (3, 4)]) = .ok g ∧
       g.min_lon ≤ (3 : ℚ) ∧ (3 : ℚ) ≤ g.max_lon ∧
       g.min_lat ≤ (4 : ℚ) ∧ (4 : ℚ) ≤ g.max_lat) :=
  bounds_contain_every_point [(1, 2), (3, 4)] (3, 4) 7
    (List.mem_cons_of_mem _ (List.mem_cons_self _ _))

/-! ## C9: idempotence of the bounds on their own corners -/

/-- C9: for every non-empty point list, feeding the four corners (SW, NW, NE,
SE) of the computed bounds back through `calculate_bounds` reproduces the
identical bounds record — in particular the same `min_lon` / `max_lon` /
`min_lat` / `max_lat` (both tools compute the extrema with the verbatim same
min/max pass; stated on the excel tool's `calculate_bounds`, whose
left/right/bottom/top fields carry those four values). -/
theorem bounds_idempotent_on_corners (ps : List (ℚ × ℚ)) (hne : ps ≠ []) :
    ∃ b, GeometryProcessor.calculate_bounds (pointsToCoords ps) = .ok b ∧
      GeometryProcessor.calculate_bounds (pointsToCoords (cornersOf b)) = .ok b := by
  obtain ⟨p0, t, rfl⟩ : ∃ p0 t, ps = p0 :: t := by
    cases ps with
    | nil => exact absurd rfl hne
    | cons a l => exact ⟨a, l, rfl⟩
  refine ⟨_, calculate_bounds_points p0 t, ?_⟩
  have hle1 : (t.map Prod.fst).foldl min p0.1 ≤ (t.map Prod.fst).foldl max p0.1 :=
    foldl_min_le_foldl_max _ _
  have hle2 : (t.map Prod.snd).foldl min p0.2 ≤ (t.map Prod.snd).foldl max p0.2 :=
    foldl_min_le_foldl_max _ _
  set a := (t.map Prod.fst).foldl min p0.1 with ha
  set c := (t.map Prod.fst).foldl max p0.1 with hc
  set b := (t.map Prod.snd).foldl min p0.2 with hb
  set d := (t.map Prod.snd).foldl max p0.2 with hd
  have hcorners : cornersOf
      ⟨a, d, a, b, c, d, c, b, [(a + c) / 2, (b + d) / 2], c - a, d - b⟩ =
      [(a, b), (a, d), (c, d), (c, b)] := rfl
  rw [hcorners, calculate_bounds_points]
  have e1 : (([(a, d), (c, d), (c, b)].map Prod.fst).foldl min a) = a := by
    simp only [List.map_cons, List.map_nil, List.foldl_cons, List.foldl_nil]
    rw [min_self, min_eq_left hle1, min_eq_left hle1]
  have e2 : (([(a, d), (c, d), (c, b)].map Prod.fst).foldl max a) = c := by
    simp only [List.map_cons, List.map_nil, List.foldl_cons, List.foldl_nil]
    rw [max_self, max_eq_right hle1, max_self]
  have e3 : (([(a, d), (c, d), (c, b)].map Prod.snd).foldl min b) = b := by
    simp only [List.map_cons, List.map_nil, List.foldl_cons, List.foldl_nil]
    rw [min_eq_left hle2, min_eq_left hle2, min_self]
  have e4 : (([(a, d), (c, d), (c, b)].map Prod.snd).foldl max b) = d := by
    simp only [List.map_cons, List.map_nil, List.foldl_cons, List.foldl_nil]
    rw [max_eq_right hle2, max_self, max_eq_left hle2]
  rw [e1, e2, e3, e4]

/-- Witness for C9 at the concrete point list `[(0, 0), (2, 1)]`. -/
theorem bounds_idempotent_on_corners_witness :
    ∃ b, GeometryProcessor.calculate_bounds (pointsToCoords [(0, 0), (2, 1)]) = .ok b ∧
      GeometryProcessor.calculate_bounds (pointsToCoords (cornersOf b)) = .ok b :=
  bounds_idempotent_on_corners [(0, 0), (2, 1)] (by simp)

/-! ## C3: totality of format detection -/

lemma tag_of_ok_bind {p : PyResult (List JVal)} {t tag : String} {coords : List JVal}
    (h : (do
        let c ← p
        return (t, c) : PyResult (String × List JVal)) = .ok (tag, coords)) :
    tag = t := by
  cases p with
  | error e => simp [Bind.bind, Except.bind] at h
  | ok c =>
    simp only [Bind.bind, Except.bind, pure, Except.pure, Except.ok.injEq,
      Prod.mk.injEq] at h
    exact h.1.symm

/-- C3 (amended): the classification cascade alone is total — every cell
yields exactly one of the seven tags — and whenever the fused
`detect_geometry_format` returns without raising, its tag is that
classification.  `detect_geometry_format` itself, however, also runs the
detected format's parser and is NOT exception-free (see the
counterexample). -/
theorem detect_tag_total_and_consistent :
    (∀ cell, GeometryProcessor.detect_tag cell = "empty" ∨
      GeometryProcessor.detect_tag cell = "geojson" ∨
      GeometryProcessor.detect_tag cell = "wkt" ∨
      GeometryProcessor.detect_tag cell = "json" ∨
      GeometryProcessor.detect_tag cell = "coordinate_pair" ∨
      GeometryProcessor.detect_tag cell = "coordinate_array" ∨
      GeometryProcessor.detect_tag cell = "unknown") ∧
    (∀ fuel cell tag coords,
      GeometryProcessor.detect_geometry_format fuel cell = .ok (tag, coords) →
      tag = GeometryProcessor.detect_tag cell) := by
  constructor
  · intro cell
    cases cell with
    | none => exact Or.inl rfl
    | some s =>
      simp only [GeometryProcessor.detect_tag]
      split_ifs <;> simp
  · intro fuel cell tag coords h
    cases cell with
    | none =>
      simp only [GeometryProcessor.detect_geometry_format, Except.ok.injEq,
        Prod.mk.injEq] at h
      simp [GeometryProcessor.detect_tag, h.1.symm]
    | some s =>
      simp only [GeometryProcessor.detect_geometry_format] at h
      simp only [GeometryProcessor.detect_tag]
      split_ifs at h ⊢ with h1 h2 h3 h4 h5 h6
      · simp only [Except.ok.injEq, Prod.mk.injEq] at h
        exact h.1.symm
      · exact tag_of_ok_bind h
      · exact tag_of_ok_bind h
      · exact tag_of_ok_bind h
      · exact tag_of_ok_bind h
      · exact tag_of_ok_bind h
      · simp only [Except.ok.injEq, Prod.mk.injEq] at h
        exact h.1.symm

/-- C3 counterexample: `detect_geometry_format` raises on the input
`"POINT()"` — the WKT pattern matches, and the embedded `_parse_wkt` finds no
coordinate pair and raises `ValueError`, which propagates out of detection.
So detection, as implemented, is not a total error-free function. -/
theorem detect_geometry_format_raises :
    GeometryProcessor.detect_geometry_format 0 (some "POINT()") =
      .error (.valueError "WKT解析错误: 无法提取WKT坐标") := by rfl

/-- Witness for C3 (amended), second component, at the concrete input
`"(12.5, 45.25)"`: the tag returned by the fused function agrees with the
pure classification. -/
theorem detect_tag_total_and_consistent_witness :
    "coordinate_pair" = GeometryProcessor.detect_tag (some "(12.5, 45.25)") :=
  detect_tag_total_and_consistent.2 0 (some "(12.5, 45.25)") "coordinate_pair"
    [.arr [.num (mkRat 125 10), .num (mkRat 4525 100)]] (by rfl)

/-! ## C5: shape of parser results -/

lemma mapM_option_mem {α β : Type} {f : α → Option β} :
    ∀ {xs : List α} {ls : List β}, xs.mapM f = some ls →
      ∀ l ∈ ls, ∃ x ∈ xs, f x = some l := by
  intro xs
  induction xs with
  | nil =>
    intro ls h l hl
    simp only [List.mapM_nil, pure, Option.some.injEq] at h
    subst h
    cases hl
  | cons x t ih =>
    intro ls h l hl
    rw [List.mapM_cons] at h
    cases hfx : f x with
    | none => rw [hfx] at h; simp at h
    | some y =>
      rw [hfx] at h
      cases hmt : t.mapM f with
      | none => rw [hmt] at h; simp at h
      | some ys =>
        rw [hmt] at h
        simp only [bind, Option.bind, pure, Option.some.injEq] at h
        subst h
        rcases List.mem_cons.mp hl with rfl | hl2
        · exact ⟨x, List.mem_cons_self x t, hfx⟩
        · obtain ⟨w, hw, hfw⟩ := ih hmt l hl2
          exact ⟨w, List.mem_cons_of_mem x hw, hfw⟩

/-- Every point produced by the `extract_coordinates` walk is a non-empty
list with numeric first element — nothing more: lengths other than 2 and
non-numeric tails pass through untouched. -/
lemma extractCoords_shape : ∀ (fuel : Nat) (j : JVal) (pts : List JVal),
    extractCoords fuel j = some pts →
    ∀ p ∈ pts, ∃ h t, p = JVal.arr (h :: t) ∧ isNumericVal h = true := by
  intro fuel
  induction fuel with
  | zero =>
    intro j pts h
    simp [extractCoords] at h
  | succ n ih =>
    intro j pts h p hp
    cases j with
    | arr xs =>
      cases xs with
      | nil =>
        simp only [extractCoords, Option.some.injEq] at h
        subst h
        cases hp
      | cons hd tl =>
        simp only [extractCoords] at h
        by_cases hnum : isNumericVal hd = true
        · simp only [hnum, if_true, Option.some.injEq] at h
          subst h
          rcases List.mem_cons.mp hp with rfl | hfalse
          · exact ⟨hd, tl, rfl, hnum⟩
          · cases hfalse
        · simp only [hnum, if_false, Bool.false_eq_true] at h
          cases hmm : (hd :: tl).mapM (extractCoords n) with
          | none => rw [hmm] at h; simp at h
          | some ls =>
            rw [hmm] at h
            simp only [Option.map_some', Option.some.injEq] at h
            subst h
            obtain ⟨l, hls, hpl⟩ := List.mem_flatten.mp hp
            obtain ⟨x, _, hfx⟩ := mapM_option_mem hmm l hls
            exact ih x l hfx p hpl
    | null =>
      simp only [extractCoords, Option.some.injEq] at h
      subst h; cases hp
    | bool b =>
      simp only [extractCoords, Option.some.injEq] at h
      subst h; cases hp
    | num q =>
      simp only [extractCoords, Option.some.injEq] at h
      subst h; cases hp
    | str s =>
      simp only [extractCoords, Option.some.injEq] at h
      subst h; cases hp
    | obj fs =>
      simp only [extractCoords, Option.some.injEq] at h
      subst h; cases hp

/-- C5 (amended): the WKT parser guarantees on success a non-empty point set
whose every point has exactly two numeric components, and the coordinate-pair
and coordinate-array parsers a single such point; but the GeoJSON/JSON walk
guarantees only that each extracted point is a non-empty list with numeric
first element — the set may be empty and a point may have 1 or ≥ 3
components (see the counterexample). -/
theorem parser_success_shapes :
    (∀ s pts, GeometryProcessor.parse_wkt s = .ok pts →
      pts ≠ [] ∧ ∀ p ∈ pts, ∃ a b : ℚ, p = .arr [.num a, .num b]) ∧
    (∀ s pts, GeometryProcessor.parse_coordinate_pair s = .ok pts →
      ∃ a b : ℚ, pts = [.arr [.num a, .num b]]) ∧
    (∀ s pts, GeometryProcessor.parse_coordinate_array s = .ok pts →
      ∃ a b : ℚ, pts = [.arr [.num a, .num b]]) ∧
    (∀ fuel j pts, extractCoords fuel j = some pts →
      ∀ p ∈ pts, ∃ h t, p = JVal.arr (h :: t) ∧ isNumericVal h = true) := by
  refine ⟨?_, ?_, ?_, extractCoords_shape⟩
  · intro s pts h
    simp only [GeometryProcessor.parse_wkt] at h
    by_cases he : (findPairs (s.length + 1) s.data).isEmpty
    · simp [he] at h
    · simp only [he, Bool.false_eq_true, if_false, Except.ok.injEq] at h
      subst h
      constructor
      · simp only [ne_eq, List.map_eq_nil_iff]
        exact fun hnil => he (by simp [hnil])
      · intro p hp
        obtain ⟨pair, _, rfl⟩ := List.mem_map.mp hp
        exact ⟨numTokVal pair.1, numTokVal pair.2, rfl⟩
  · intro s pts h
    simp only [GeometryProcessor.parse_coordinate_pair] at h
    cases hts : findNumToks (s.length + 1) s.data with
    | nil => rw [hts] at h; simp at h
    | cons t1 rest =>
      cases rest with
      | nil => rw [hts] at h; simp at h
      | cons t2 more =>
        rw [hts] at h
        simp only [Except.ok.injEq] at h
        exact ⟨numTokVal t1, numTokVal t2, h.symm⟩
  · intro s pts h
    simp only [GeometryProcessor.parse_coordinate_array] at h
    cases hts : findNumToks (s.length + 1) s.data with
    | nil => rw [hts] at h; simp at h
    | cons t1 rest =>
      cases rest with
      | nil => rw [hts] at h; simp at h
      | cons t2 more =>
        rw [hts] at h
        simp only [Except.ok.injEq] at h
        exact ⟨numTokVal t1, numTokVal t2, h.symm⟩

/-- C5 counterexample: on `{"type":"Point","coordinates":[1,2,3]}` the
GeoJSON parser succeeds with the single point `[1, 2, 3]`, which has THREE
numeric components (the z value is retained, not dropped); and on
`{"type":"Point"}` it succeeds with an EMPTY point set.  Both contradict the
claimed guarantee `size ≥ 1 ∧ every point has exactly two components`. -/
theorem parse_geojson_point_shape_violations :
    GeometryProcessor.parse_geojson 9 "\x7b\"type\":\"Point\",\"coordinates\":[1,2,3]\x7d" =
      .ok [.arr [.num 1, .num 2, .num 3]] ∧
    componentCount (JVal.arr [.num 1, .num 2, .num 3]) = 3 ∧
    GeometryProcessor.parse_geojson 9 "\x7b\"type\":\"Point\"\x7d" = .ok [] := by
  exact ⟨by rfl, by rfl, by rfl⟩

/-- Witness for C5 (amended) at concrete inputs for all four components. -/
theorem parser_success_shapes_witness :
    [JVal.arr [.num 1, .num 2]] ≠ [] ∧
    (∃ a b : ℚ, [JVal.arr [.num (mkRat 125 10), .num (mkRat 4525 100)]] =
      [.arr [.num a, .num b]]) ∧
    (∃ a b : ℚ, [JVal.arr [.num (mkRat 1025 10), .num (mkRat 312 10)]] =
      [.arr [.num a, .num b]]) ∧
    (∃ h t, JVal.arr [.num 7] = JVal.arr (h :: t) ∧ isNumericVal h = true) :=
  ⟨(parser_success_shapes.1 "POINT(1 2)" [.arr [.num 1, .num 2]] (by rfl)).1,
   parser_success_shapes.2.1 "(12.5, 45.25)" _ (by rfl),
   parser_success_shapes.2.2.1 "[102.5,31.2]" _ (by rfl),
   parser_success_shapes.2.2.2 1 (.arr [.num 7]) [.arr [.num 7]] (by rfl)
     (.arr [.num 7]) (List.mem_cons_self _ _)⟩

/-! ## C10: whitespace-only cells are Unknown, not Empty -/

lemma pyStrip_all_ws (s : String) (h : ∀ c ∈ s.data, isPyWs c = true) :
    pyStrip s = "" := by
  have h1 : s.data.dropWhile isPyWs = [] := List.dropWhile_eq_nil_iff.mpr h
  simp [pyStrip, h1]

/-- C10: a cell that is a non-empty string of whitespace characters is NOT
classified Empty (the emptiness test fires before the strip, and `" "` is
truthy), but after the strip no detector matches the empty string, so it is
classified Unknown — and the row is therefore counted as a row error with its
eight fields left unset, rather than being silently skipped. -/
theorem whitespace_only_cell_is_unknown (fuel : Nat) (s : String)
    (hne : s ≠ "") (hws : ∀ c ∈ s.data, isPyWs c = true) :
    GeometryProcessor.detect_geometry_format fuel (some s) = .ok ("unknown", []) ∧
    GeometryProcessor.detect_tag (some s) = "unknown" ∧
    GeometryProcessor.processRow fuel 0 [some s] =
      (none, true) := by
  have hg := pyStrip_all_ws s hws
  have key : GeometryProcessor.detect_geometry_format fuel (some s) =
      .ok ("unknown", []) := by
    simp only [GeometryProcessor.detect_geometry_format]
    rw [if_neg hne, hg]
    rfl
  have tagkey : GeometryProcessor.detect_tag (some s) = "unknown" := by
    simp only [GeometryProcessor.detect_tag]
    rw [if_neg hne, hg]
    rfl
  refine ⟨key, tagkey, ?_⟩
  have hcell : (([some s].get? 0).getD none) = some s := rfl
  simp only [GeometryProcessor.processRow, hcell, key]
  rfl

/-- Witness for C10 at the single-space cell `" "`. -/
theorem whitespace_only_cell_is_unknown_witness :
    GeometryProcessor.detect_geometry_format 3 (some " ") = .ok ("unknown", []) ∧
    GeometryProcessor.detect_tag (some " ") = "unknown" ∧
    GeometryProcessor.processRow 3 0 [some " "] = (none, true) :=
  whitespace_only_cell_is_unknown 3 " " (by decide) (by decide)

/-! ## C2: scenario C — the bare JSON array row -/

/-- C2 evaluation (code bug): the cell `"[102.5,31.2]"` is valid JSON, so the
JSON branch wins and `_parse_json` wraps the bare array UNFLATTENED as the
coordinates `[102.5, 31.2]`; `calculate_bounds` then subscripts the float
`102.5` and raises `TypeError`, so the row is counted as a row error and all
eight fields stay unset — the dedicated `_is_coordinate_array` /
`_parse_coordinate_array` pair, which WOULD have produced the single point,
matches the cell but is shadowed and unreachable. -/
theorem scenario_c_row_errors :
    GeometryProcessor.detect_geometry_format 9 (some "[102.5,31.2]") =
      .ok ("json", [.num (mkRat 1025 10), .num (mkRat 312 10)]) ∧
    GeometryProcessor.is_coordinate_array "[102.5,31.2]" = true ∧
    GeometryProcessor.calculate_bounds [.num (mkRat 1025 10), .num (mkRat 312 10)] =
      .error (.typeError "object is not subscriptable") ∧
    GeometryProcessor.process_excel_file 9 "geom" scenarioCFile =
      .ok ([([some "[102.5,31.2]"], none)], 0, 1) :=
  ⟨by rfl, by rfl, by rfl, by rfl⟩

/-! ## C7: scenario A — Polygon bbox, center and rectangle ring -/

/-- C7: for the scenario A Polygon, the computed bbox is `[10,10,30,20]`, the
center `[20,15]`, and the emitted value is a FeatureCollection with exactly
one feature whose geometry is the Polygon with the closed 5-point ring
`[[10,10],[10,20],[30,20],[30,10],[10,10]]` (SW, NW, NE, SE, SW). -/
theorem scenario_a_bbox_center_ring :
    ∃ b, GeoJsonBatchProcessor.calculate_bounds 9 scenarioA = .ok b ∧
      b.bbox = [10, 10, 30, 20] ∧
      b.center = [20, 15] ∧
      pyGet (GeoJsonBatchProcessor.create_rectangle_geojson b "test") "type" .null =
        .ok (.str "FeatureCollection") ∧
      ∃ feat,
        pyGet (GeoJsonBatchProcessor.create_rectangle_geojson b "test") "features" .null =
          .ok (.arr [feat]) ∧
        pyGet feat "geometry" .null =
          .ok (.obj [("type", .str "Polygon"),
            ("coordinates", .arr [.arr [GeoJsonBatchProcessor.qlist [10, 10],
              GeoJsonBatchProcessor.qlist [10, 20], GeoJsonBatchProcessor.qlist [30, 20],
              GeoJsonBatchProcessor.qlist [30, 10], GeoJsonBatchProcessor.qlist [10, 10]]])]) := by
  refine ⟨⟨10, 30, 10, 20, [10, 10], [10, 20], [30, 20], [30, 10], [10, 10, 30, 20],
      [(10 + 30) / 2, (10 + 20) / 2], 30 - 10, 20 - 10⟩,
    by rfl, by rfl, by norm_num, by rfl, ⟨_, rfl, rfl⟩⟩

/-! ## C8: scenario B — WKT token-pair harvesting -/

/-- C8: WKT parsing ignores ring/parenthesis nesting and harvests every
`<number> <number>` token pair; on scenario B's MULTIPOLYGON it extracts
exactly 5 points with bounds min_lon=1, min_lat=1, max_lon=2, max_lat=2
(in the excel record: `bottom_left_longitude/latitude` and
`top_right_longitude/latitude`); in general it fails exactly when the
pair-scan finds nothing. -/
theorem scenario_b_wkt :
    GeometryProcessor.parse_wkt "MULTIPOLYGON(((1 1, 2 1, 2 2, 1 2, 1 1)))" =
      .ok wktScenarioPoints ∧
    wktScenarioPoints.length = 5 ∧
    (∃ b, GeometryProcessor.calculate_bounds wktScenarioPoints = .ok b ∧
      b.bottom_left_longitude = 1 ∧ b.bottom_left_latitude = 1 ∧
      b.top_right_longitude = 2 ∧ b.top_right_latitude = 2) ∧
    (∀ s : String, isErr (GeometryProcessor.parse_wkt s) = true ↔
      findPairs (s.length + 1) s.data = []) := by
  refine ⟨by rfl, by rfl,
    ⟨⟨1, 2, 1, 1, 2, 2, 2, 1, [(1 + 2) / 2, (1 + 2) / 2], 2 - 1, 2 - 1⟩,
      by rfl, by rfl, by rfl, by rfl, by rfl⟩, ?_⟩
  intro s
  simp only [GeometryProcessor.parse_wkt]
  by_cases he : (findPairs (s.length + 1) s.data).isEmpty = true
  · have hnil : findPairs (s.length + 1) s.data = [] := List.isEmpty_iff.mp he
    simp [he, isErr, hnil]
  · have hnen : findPairs (s.length + 1) s.data ≠ [] := by
      intro hc
      exact he (by simp [hc])
    simp [he, isErr, hnen]

/-- Witness for the general failure condition of C8 at the concrete
non-geometry input `"abcxyz"` (spec scenario D's row value). -/
theorem scenario_b_wkt_witness :
    isErr (GeometryProcessor.parse_wkt "abcxyz") = true :=
  (scenario_b_wkt.2.2.2 "abcxyz").mpr (by rfl)

/-! ## C4: tabular batch abort policy -/

/-- C4 counterexample: in a two-file tabular batch where only the first file
has a file-level error (missing `geom` column) and the second is fully valid,
the whole batch aborts at validation (`sys.exit(1)`) and the second file is
NOT processed — contradicting "the remaining files in the batch are still
processed". -/
theorem tabular_file_error_aborts_batch :
    GeometryProcessor.process_directory 9 "geom" [xFileMissingColumn, xFileGood] =
      .abortedRun [("a.csv", "文件中未找到geom字段")] ∧
    GeometryProcessor.validate_excel_file "geom" xFileGood = (true, "") ∧
    GeometryProcessor.xSuccessFiles
      (GeometryProcessor.process_directory 9 "geom" [xFileMissingColumn, xFileGood]) = [] ∧
    GeometryProcessor.xProcessedCount
      (GeometryProcessor.process_directory 9 "geom" [xFileMissingColumn, xFileGood]) = 0 :=
  ⟨by rfl, by rfl, by rfl, by rfl⟩

/-- C4 (amended): a file-level error (unsupported extension, missing geometry
column, or any other validation failure) detected during the upfront
validation phase aborts the ENTIRE tabular batch with exit code 1 before any
file is processed — the same fail-closed policy as GeoJSON mode; only
exceptions raised while processing an already-validated file are confined to
that file. -/
theorem tabular_batch_fail_closed (fuel : Nat) (gfield : String)
    (files : List GeometryProcessor.XFile)
    (hbad : ∃ f ∈ files, (GeometryProcessor.validate_excel_file gfield f).1 = false) :
    GeometryProcessor.process_directory fuel gfield files =
      .abortedRun (GeometryProcessor.invalidXReports gfield files) ∧
    GeometryProcessor.xProcessedCount
      (GeometryProcessor.process_directory fuel gfield files) = 0 ∧
    GeometryProcessor.xSuccessFiles
      (GeometryProcessor.process_directory fuel gfield files) = [] ∧
    GeometryProcessor.xExitCode
      (GeometryProcessor.process_directory fuel gfield files) = 1 := by
  obtain ⟨f, hf, hv⟩ := hbad
  have h1 : files.isEmpty = false := by
    cases files with
    | nil => cases hf
    | cons a l => rfl
  have hmem : (f.path, (GeometryProcessor.validate_excel_file gfield f).2) ∈
      GeometryProcessor.invalidXReports gfield files :=
    List.mem_filterMap.mpr ⟨f, hf, by simp [hv]⟩
  have h2 : (GeometryProcessor.invalidXReports gfield files).isEmpty = false := by
    cases hh : GeometryProcessor.invalidXReports gfield files with
    | nil => rw [hh] at hmem; cases hmem
    | cons a l => rfl
  have hrun : GeometryProcessor.process_directory fuel gfield files =
      .abortedRun (GeometryProcessor.invalidXReports gfield files) := by
    simp only [GeometryProcessor.process_directory, h1, h2, Bool.false_eq_true,
      if_false, Bool.not_false, if_true]
  refine ⟨hrun, ?_, ?_, ?_⟩ <;> rw [hrun] <;> rfl

/-- Witness for C4 (amended) at the concrete two-file batch. -/
theorem tabular_batch_fail_closed_witness :
    GeometryProcessor.process_directory 9 "geom" [xFileMissingColumn, xFileGood] =
      .abortedRun (GeometryProcessor.invalidXReports "geom" [xFileMissingColumn, xFileGood]) ∧
    GeometryProcessor.xProcessedCount
      (GeometryProcessor.process_directory 9 "geom" [xFileMissingColumn, xFileGood]) = 0 ∧
    GeometryProcessor.xSuccessFiles
      (GeometryProcessor.process_directory 9 "geom" [xFileMissingColumn, xFileGood]) = [] ∧
    GeometryProcessor.xExitCode
      (GeometryProcessor.process_directory 9 "geom" [xFileMissingColumn, xFileGood]) = 1 :=
  tabular_batch_fail_closed 9 "geom" [xFileMissingColumn, xFileGood]
    ⟨xFileMissingColumn, List.mem_cons_self _ _, by rfl⟩

/-! ## C6: GeoJSON batch mode is fail-closed -/

/-- C6: if any file of a GeoJSON batch fails validation, the whole batch
aborts with exit code 1 and zero output files, and every file's validation
outcome is accounted for: each file either validated successfully or appears
with its message in the reported error list. -/
theorem geojson_batch_fail_closed (fuel : Nat)
    (files : List GeoJsonBatchProcessor.GeoFile)
    (hbad : ∃ f ∈ files, (GeoJsonBatchProcessor.validate_geojson_file fuel f).1 = false) :
    GeoJsonBatchProcessor.process_directory fuel files =
      .abortedRun (GeoJsonBatchProcessor.invalidGeoReports fuel files) ∧
    GeoJsonBatchProcessor.geoOutputs
      (GeoJsonBatchProcessor.process_directory fuel files) = [] ∧
    GeoJsonBatchProcessor.geoExitCode
      (GeoJsonBatchProcessor.process_directory fuel files) = 1 ∧
    ∀ f ∈ files, (GeoJsonBatchProcessor.validate_geojson_file fuel f).1 = true ∨
      (f.path, (GeoJsonBatchProcessor.validate_geojson_file fuel f).2.1) ∈
        GeoJsonBatchProcessor.invalidGeoReports fuel files := by
  obtain ⟨f, hf, hv⟩ := hbad
  have h1 : files.isEmpty = false := by
    cases files with
    | nil => cases hf
    | cons a l => rfl
  have hmem : (f.path, (GeoJsonBatchProcessor.validate_geojson_file fuel f).2.1) ∈
      GeoJsonBatchProcessor.invalidGeoReports fuel files :=
    List.mem_filterMap.mpr ⟨f, hf, by simp [hv]⟩
  have h2 : (GeoJsonBatchProcessor.invalidGeoReports fuel files).isEmpty = false := by
    cases hh : GeoJsonBatchProcessor.invalidGeoReports fuel files with
    | nil => rw [hh] at hmem; cases hmem
    | cons a l => rfl
  have hrun : GeoJsonBatchProcessor.process_directory fuel files =
      .abortedRun (GeoJsonBatchProcessor.invalidGeoReports fuel files) := by
    simp only [GeoJsonBatchProcessor.process_directory, h1, h2, Bool.false_eq_true,
      if_false, Bool.not_false, if_true]
  refine ⟨hrun, by rw [hrun]; rfl, by rw [hrun]; rfl, ?_⟩
  intro g hg
  by_cases hvg : (GeoJsonBatchProcessor.validate_geojson_file fuel g).1 = true
  · exact Or.inl hvg
  · refine Or.inr (List.mem_filterMap.mpr ⟨g, hg, ?_⟩)
    simp only [Bool.not_eq_true] at hvg
    simp [hvg]

/-- Witness for C6 at the concrete scenario E batch: two valid files, one
invalid (not JSON at all). -/
theorem geojson_batch_fail_closed_witness :
    (GeoJsonBatchProcessor.validate_geojson_file 9 geoFileA).1 = true ∧
    (GeoJsonBatchProcessor.validate_geojson_file 9 geoFileB).1 = true ∧
    GeoJsonBatchProcessor.process_directory 9 [geoFileA, geoFileB, geoFileC] =
      .abortedRun (GeoJsonBatchProcessor.invalidGeoReports 9 [geoFileA, geoFileB, geoFileC]) ∧
    GeoJsonBatchProcessor.geoOutputs
      (GeoJsonBatchProcessor.process_directory 9 [geoFileA, geoFileB, geoFileC]) = [] ∧
    GeoJsonBatchProcessor.geoExitCode
      (GeoJsonBatchProcessor.process_directory 9 [geoFileA, geoFileB, geoFileC]) = 1 :=
  have h := geojson_batch_fail_closed 9 [geoFileA, geoFileB, geoFileC]
    ⟨geoFileC,
     List.mem_cons_of_mem _ (List.mem_cons_of_mem _ (List.mem_cons_self _ _)),
     by rfl⟩
  ⟨by rfl, by rfl, h.1, h.2.1, h.2.2.1⟩

end GeoTools
